import Mathlib

/-!
Shallow embedding of the service-composition and degraded-mode router of the
`lipish/xpilot` repository (crates/tabby): configuration merge (`merge_args`),
model-role resolution (`load_embedding`, `load_completion_and_chat`), service
assembly (the startup sequence of `main` in `serve.rs`), and the route-table
construction (`api_router`).

Conventions of the embedding:
* The source's `unimplemented!` panics on `Local` model variants are modelled as
  `Except.error`: a panic aborts startup and produces no value, exactly as an
  error value does here.
* Asynchronous calls that cannot fail in the source (the external
  `http_api_bindings` factory functions) are modelled as total constructors of
  handle types that remember the HTTP configuration they were created from.
* `axum` routers are modelled as ordered lists of route entries; `Router.layer`
  follows axum's documented semantics: it wraps every route registered so far,
  and routes added afterwards are not wrapped by it.
-/

namespace Xpilot

/-- `tabby_common::config::HttpModelConfig` (external collaborator): the remote
endpoint variant's payload. The template fields are what
`http_api_bindings::build_completion_prompt` reports. -/
structure HttpModelConfig where
  kind : String
  model_name : Option String
  api_endpoint : Option String
  prompt_template : Option String
  chat_template : Option String
deriving DecidableEq, Repr

/-- Device selector for model inference (`crate::Device`). -/
inductive Device where
  | Cpu
  | Cuda
deriving DecidableEq, Repr

/-- Payload of the local model variant: model identifier, parallelism and device. -/
structure LocalModelConfig where
  model_id : String
  parallelism : Nat
  device : Device
deriving DecidableEq, Repr

/-- `tabby_common::config::ModelConfig`: tagged variant, either a remote HTTP
endpoint or a local model. -/
inductive ModelConfig where
  | Http : HttpModelConfig → ModelConfig
  | Local : LocalModelConfig → ModelConfig
deriving DecidableEq, Repr

/-- The per-role model entries of the configuration (`config.model.*` in
`serve.rs`): completion and chat are optional, embedding is required. -/
structure ModelConfigGroup where
  completion : Option ModelConfig
  chat : Option ModelConfig
  embedding : ModelConfig
deriving DecidableEq, Repr

/-- Server-level settings; `completion_timeout` is the per-request timeout in
seconds read by `api_router`. -/
structure ServerConfig where
  completion_timeout : Nat
deriving DecidableEq, Repr

/-- `config.completion` (external collaborator `tabby_common::config`): the
completion-service tuning section, opaque to the router logic. -/
structure CompletionConfig where
  max_input_length : Nat
deriving DecidableEq, Repr

/-- `tabby_common::config::Config`: the loaded configuration file. -/
structure Config where
  model : ModelConfigGroup
  server : ServerConfig
  completion : CompletionConfig
  repositories : List String
deriving DecidableEq, Repr

/-- `ServeArgs` from `serve.rs`: the CLI arguments of the serve command. -/
structure ServeArgs where
  model : Option String
  host : String
  port : Nat
  device : Device
  parallelism : Nat
deriving DecidableEq, Repr

/-- Modelled from the spec: `to_local_config` is defined in the crate root,
outside the sampled sources; per the spec the completion entry is "synthesized
from the CLI identifier, parallelism, and device selection", and — as the
function's name and the `Local` pattern match on `config.model.completion` in
`load_model` (`serve.rs`) show — the synthesized entry is a `Local` variant. -/
def to_local_config (model : String) (parallelism : Nat) (device : Device) : ModelConfig :=
  ModelConfig.Local (LocalModelConfig.mk model parallelism device)

/-- `merge_args` from `serve.rs`: clones the configuration, and when the CLI
supplies a model identifier, warns if the file already configures a completion
model and then overwrites the completion entry with the CLI-derived one. The
second component counts the warnings emitted by the call. -/
def merge_args (config : Config) (args : ServeArgs) : Config × Nat :=
  match args.model with
  | some model =>
    let warnings := if config.model.completion.isSome then 1 else 0
    ({ config with
        model := { config.model with
          completion := some (to_local_config model args.parallelism args.device) } },
      warnings)
  | none => (config, 0)

/-- A resolved embedding backend handle, remembering the endpoint it came from. -/
inductive EmbeddingHandle where
  | fromHttp : HttpModelConfig → EmbeddingHandle
deriving DecidableEq, Repr

/-- A resolved completion backend handle. -/
inductive CompletionHandle where
  | fromHttp : HttpModelConfig → CompletionHandle
deriving DecidableEq, Repr

/-- A resolved chat backend handle. -/
inductive ChatHandle where
  | fromHttp : HttpModelConfig → ChatHandle
deriving DecidableEq, Repr

/-- `PromptInfo` from `services/model/mod.rs`: the optional templates reported
by a resolved completion backend. -/
structure PromptInfo where
  prompt_template : Option String
  chat_template : Option String
deriving DecidableEq, Repr

/-- External binding `http_api_bindings::build_completion_prompt`: reports the
remote backend's prompt and chat templates. -/
def build_completion_prompt (http : HttpModelConfig) : Option String × Option String :=
  (http.prompt_template, http.chat_template)

/-- `load_embedding` from `services/model/mod.rs`: an HTTP variant resolves via
the external binding; a `Local` variant hits `unimplemented!`, modelled as a
fatal error. -/
def load_embedding (config : ModelConfig) : Except String EmbeddingHandle :=
  match config with
  | ModelConfig.Http http => Except.ok (EmbeddingHandle.fromHttp http)
  | ModelConfig.Local _ => Except.error "Local embedding model is not supported"

/-- `load_completion_and_chat` from `services/model/mod.rs`: resolves the
completion role first (absent entry → absent handle; `Local` →
`unimplemented!`, modelled as a fatal error that aborts before chat is
examined), then resolves the chat role the same way. -/
def load_completion_and_chat (completion_model : Option ModelConfig)
    (chat_model : Option ModelConfig) :
    Except String (Option CompletionHandle × Option PromptInfo × Option ChatHandle) := do
  let (completion, prompt) ←
    match completion_model with
    | some (ModelConfig.Http http) =>
        let engine := CompletionHandle.fromHttp http
        let templates := build_completion_prompt http
        Except.ok (some engine, some (PromptInfo.mk templates.1 templates.2))
    | some (ModelConfig.Local _) => Except.error "Local completion model is not supported"
    | none => Except.ok (none, none)
  let chat ←
    match chat_model with
    | some (ModelConfig.Http http) => Except.ok (some (ChatHandle.fromHttp http))
    | some (ModelConfig.Local _) => Except.error "Local chat model is not supported"
    | none => Except.ok none
  Except.ok (completion, prompt, chat)

/-- The event-logger sink (external collaborator `services::event`). -/
structure EventLogger where
  sink : String
deriving DecidableEq, Repr

/-- The code-search handle built from the embedding handle and the shared index
reader provider (`create_code_search` in `main`). -/
structure CodeSearchHandle where
  embedding : EmbeddingHandle
deriving DecidableEq, Repr

/-- The completion service: the resolved completion engine wired to the
code-search handle and the event-logger sink. -/
structure CompletionService where
  engine : CompletionHandle
  code : CodeSearchHandle
  logger : EventLogger
deriving DecidableEq, Repr

/-- Modelled from the spec: `create_completion_service_and_chat` lives in
`services/completion`, outside the sampled sources. Per the spec, the third
assembly stage resolves completion "using the search handle and a shared
event-logger sink"; resolution itself is `load_completion_and_chat`, whose
handles this function wraps into a `CompletionService`. -/
def create_completion_service_and_chat (code : CodeSearchHandle) (logger : EventLogger)
    (completion_model : Option ModelConfig) (chat_model : Option ModelConfig) :
    Except String (Option CompletionService × Option PromptInfo × Option ChatHandle) := do
  let (completion, prompt, chat) ← load_completion_and_chat completion_model chat_model
  Except.ok (completion.map (fun engine => CompletionService.mk engine code logger), prompt, chat)

/-- The live aggregate of resolved services held by the startup sequence of
`main` in `serve.rs`: the embedding handle, the code-search handle built from
it, and the optional completion and chat handles. -/
structure ResolvedServices where
  embedding : EmbeddingHandle
  code : CodeSearchHandle
  completion : Option CompletionService
  chat : Option ChatHandle
deriving DecidableEq, Repr

/-- Service assembly, following the startup sequence of `main` in `serve.rs`:
resolve embedding, build code search from the embedding handle and the index
reader provider, then resolve completion and chat. A `Local` variant in any
stage aborts (the source panics via `unimplemented!`), so no `ResolvedServices`
value is produced for such a configuration. -/
def assemble (config : Config) (logger : EventLogger) : Except String ResolvedServices := do
  let embedding ← load_embedding config.model.embedding
  let code := CodeSearchHandle.mk embedding
  let (completion, _prompt, chat) ←
    create_completion_service_and_chat code logger config.model.completion config.model.chat
  Except.ok (ResolvedServices.mk embedding code completion chat)

/-- HTTP method of a route entry. -/
inductive Method where
  | GET
  | POST
deriving DecidableEq, Repr

/-- The handler a route entry is bound to: the active handlers of `routes::*`
with their state, or the fixed degraded handler `StatusCode::NOT_IMPLEMENTED`. -/
inductive Handler where
  | log_event : EventLogger → Handler
  | models : Config → Handler
  | completions : CompletionService → Handler
  | chat_completions : ChatHandle → Handler
  | not_implemented : Handler
  | setting : Handler
deriving DecidableEq, Repr

/-- The middlewares `api_router` installs: the request-timeout layer
(parameterized by the timeout in seconds) and the allowed-code-repository
access-control extension. -/
inductive Middleware where
  | timeout : Nat → Middleware
  | allowedCodeRepository : Middleware
deriving DecidableEq, Repr

/-- One route-table entry: path, method, bound handler, and the middlewares
wrapping it (innermost first). -/
structure RouteEntry where
  path : String
  method : Method
  handler : Handler
  layers : List Middleware
deriving DecidableEq, Repr

/-- An `axum::Router` as the ordered list of its route entries. -/
abbrev Router := List RouteEntry

/-- `Router::route`: registers a path+method bound to a handler, with no
wrapping layers yet. -/
def Router.route (r : Router) (path : String) (method : Method) (handler : Handler) : Router :=
  r ++ [RouteEntry.mk path method handler []]

/-- `Router::layer` (axum semantics): wraps every route registered so far;
routes added after this call are not wrapped by this layer. -/
def Router.layer (r : Router) (m : Middleware) : Router :=
  r.map (fun e => { e with layers := e.layers ++ [m] })

/-- `Router::merge`: concatenates two routers' entries. -/
def Router.merge (a b : Router) : Router := a ++ b

/-- `api_router` from `serve.rs` as a pure route-table construction: the
always-present events, models and server-setting routes, plus the conditional
completion sub-router — when the completion handle is present, the completions
route wrapped in the timeout layer, then (if the chat handle is present) the
chat-completions route, then the access-control layer over the sub-router;
when the completion handle is absent, the completions path bound to the fixed
`NOT_IMPLEMENTED` handler. -/
def api_router (_args : ServeArgs) (config : Config) (logger : EventLogger)
    (_code : CodeSearchHandle) (completion_state : Option CompletionService)
    (chat_state : Option ChatHandle) : Router :=
  let routers : List Router := []
  let routers := routers ++ [Router.route [] "/v1/events" Method.POST (Handler.log_event logger)]
  let routers := routers ++ [Router.route [] "/v1/models" Method.GET (Handler.models config)]
  let routers := routers ++
    [match completion_state with
     | some cs =>
        let router := Router.layer
          (Router.route [] "/v1/completions" Method.POST (Handler.completions cs))
          (Middleware.timeout config.server.completion_timeout)
        let router :=
          match chat_state with
          | some ch =>
              Router.route router "/v1/chat/completions" Method.POST (Handler.chat_completions ch)
          | none => router
        Router.layer router Middleware.allowedCodeRepository
     | none => Router.route [] "/v1/completions" Method.POST Handler.not_implemented]
  let routers := routers ++ [Router.route [] "/v1beta/server_setting" Method.GET Handler.setting]
  routers.foldl Router.merge []

/-- Number of entries of the route table registered at a given path. -/
def countPath (path : String) (r : Router) : Nat :=
  (r.filter (fun e => decide (e.path = path))).length

/-- Route dispatch: the handler bound to a path+method, or `none` — the latter
is what surfaces to a client as a 404. -/
def dispatch (r : Router) (path : String) (method : Method) : Option Handler :=
  (r.find? (fun e => decide (e.path = path ∧ e.method = method))).map RouteEntry.handler

/-- `Cache` from `tabby-index/fixtures/test_file.rs`: an `Arc`-shared list of
strings. -/
structure Cache where
  data : List String
deriving DecidableEq, Repr

/-- `Cache::new`: an empty cache. -/
def Cache.new : Cache := Cache.mk []

/-- `Cache::add` from `test_file.rs`: clones the inner data list, pushes the
item onto the clone, and drops the clone; the cache observable through `self`
is unchanged. The returned value is the cache's state after the call. -/
def Cache.add (c : Cache) (item : String) : Cache :=
  let _data := c.data.concat item
  c

/-! Concrete sample values used by witnesses and counterexamples. -/

/-- A sample remote completion endpoint. -/
def sampleCompletionHttp : HttpModelConfig :=
  HttpModelConfig.mk "openai/completion" (some "model-a") (some "http://localhost:9000")
    (some "<PRE>") none

/-- A sample remote chat endpoint. -/
def sampleChatHttp : HttpModelConfig :=
  HttpModelConfig.mk "openai/chat" (some "model-b") (some "http://localhost:9001") none
    (some "chatml")

/-- A sample remote embedding endpoint. -/
def sampleEmbeddingHttp : HttpModelConfig :=
  HttpModelConfig.mk "openai/embedding" (some "model-e") (some "http://localhost:9002") none none

/-- A sample event-logger sink. -/
def sampleLogger : EventLogger := EventLogger.mk "events.jsonl"

/-- Sample server settings with a 30-second completion timeout. -/
def sampleServer : ServerConfig := ServerConfig.mk 30

/-- A sample completion tuning section. -/
def sampleCompletionSection : CompletionConfig := CompletionConfig.mk 1024

/-- Sample CLI arguments with no model override. -/
def sampleArgs : ServeArgs := ServeArgs.mk none "0.0.0.0" 8080 Device.Cpu 1

/-- Sample CLI arguments supplying a completion model identifier. -/
def sampleArgsModel : ServeArgs := ServeArgs.mk (some "cli-model") "0.0.0.0" 8080 Device.Cpu 1

/-- A configuration with completion, chat and embedding all configured as
remote endpoints. -/
def cfgBoth : Config :=
  Config.mk
    (ModelConfigGroup.mk (some (ModelConfig.Http sampleCompletionHttp))
      (some (ModelConfig.Http sampleChatHttp)) (ModelConfig.Http sampleEmbeddingHttp))
    sampleServer sampleCompletionSection []

/-- A configuration with chat configured as a remote endpoint but no completion
model. -/
def cfgChatOnly : Config :=
  Config.mk
    (ModelConfigGroup.mk none (some (ModelConfig.Http sampleChatHttp))
      (ModelConfig.Http sampleEmbeddingHttp))
    sampleServer sampleCompletionSection []

/-- A configuration whose embedding role carries a `Local` variant. -/
def cfgLocalEmbedding : Config :=
  Config.mk
    (ModelConfigGroup.mk none none
      (ModelConfig.Local (LocalModelConfig.mk "/models/foo" 1 Device.Cpu)))
    sampleServer sampleCompletionSection []

/-- A sample code-search handle built over the sample embedding endpoint. -/
def sampleCode : CodeSearchHandle := CodeSearchHandle.mk (EmbeddingHandle.fromHttp sampleEmbeddingHttp)

/-- A sample resolved completion service. -/
def sampleCompletionService : CompletionService :=
  CompletionService.mk (CompletionHandle.fromHttp sampleCompletionHttp) sampleCode sampleLogger

/-- A sample resolved chat handle. -/
def sampleChatHandle : ChatHandle := ChatHandle.fromHttp sampleChatHttp

/-- Claim C3 (confirmed): when the CLI supplies a completion model identifier,
the merged configuration's completion entry equals the entry synthesized by
`to_local_config` from the CLI identifier, parallelism and device; the conflict
warning is emitted exactly once when the base configuration already has a
completion model configured, and not at all when it has none (the CLI entry is
still installed, via the same equation). -/
theorem c3_merge_override (config : Config) (args : ServeArgs) (model : String)
    (h : args.model = some model) :
    (merge_args config args).1.model.completion
        = some (to_local_config model args.parallelism args.device) ∧
    (merge_args config args).2 = (if config.model.completion.isSome then 1 else 0) := by
  simp [merge_args, h]

/-- Witness for `c3_merge_override` at a concrete base configuration (which has
a completion model configured) and concrete CLI arguments. -/
theorem c3_merge_override_witness :
    (merge_args cfgBoth sampleArgsModel).1.model.completion
        = some (to_local_config "cli-model" sampleArgsModel.parallelism sampleArgsModel.device) ∧
    (merge_args cfgBoth sampleArgsModel).2
        = (if cfgBoth.model.completion.isSome then 1 else 0) :=
  c3_merge_override cfgBoth sampleArgsModel "cli-model" rfl

/-- Claim C7 (confirmed): the merge changes at most the completion model entry —
every other field of the merged configuration (the server section, the
completion tuning section, the repository list, the chat and embedding model
entries) equals the corresponding field of the base configuration. The base
value passed in is itself untouched: `merge_args` builds a new record from a
structural copy (the source clones the shared config before modifying it), and
in the embedding all values are immutable. -/
theorem c7_merge_frame (config : Config) (args : ServeArgs) :
    (merge_args config args).1.server = config.server ∧
    (merge_args config args).1.completion = config.completion ∧
    (merge_args config args).1.repositories = config.repositories ∧
    (merge_args config args).1.model.chat = config.model.chat ∧
    (merge_args config args).1.model.embedding = config.model.embedding := by
  cases h : args.model <;> simp [merge_args, h]

/-- Claim C9 (confirmed): whenever the CLI supplies a model identifier, the
merged completion entry is a `Local`-variant model config built from the CLI
identifier, parallelism and device, and resolving completion from the merged
configuration therefore always fails with the unsupported-configuration
condition — regardless of the chat entry — instead of serving the CLI-selected
model. -/
theorem c9_cli_model_unresolvable (config : Config) (args : ServeArgs) (model : String)
    (chat_model : Option ModelConfig) (h : args.model = some model) :
    (merge_args config args).1.model.completion
        = some (ModelConfig.Local (LocalModelConfig.mk model args.parallelism args.device)) ∧
    load_completion_and_chat (merge_args config args).1.model.completion chat_model
        = Except.error "Local completion model is not supported" := by
  have h1 : (merge_args config args).1.model.completion
      = some (ModelConfig.Local (LocalModelConfig.mk model args.parallelism args.device)) := by
    simp [merge_args, h, to_local_config]
  exact ⟨h1, by rw [h1]; rfl⟩

/-- Witness for `c9_cli_model_unresolvable` at concrete inputs. -/
theorem c9_cli_model_unresolvable_witness :
    (merge_args cfgChatOnly sampleArgsModel).1.model.completion
        = some (ModelConfig.Local (LocalModelConfig.mk "cli-model"
            sampleArgsModel.parallelism sampleArgsModel.device)) ∧
    load_completion_and_chat (merge_args cfgChatOnly sampleArgsModel).1.model.completion
        (some (ModelConfig.Http sampleChatHttp))
        = Except.error "Local completion model is not supported" :=
  c9_cli_model_unresolvable cfgChatOnly sampleArgsModel "cli-model"
    (some (ModelConfig.Http sampleChatHttp)) rfl

/-- Claim C10 (confirmed): starting from `Cache.new`, no sequence of
`Cache.add` calls changes the observable contents — `add` pushes onto a
discarded clone of the inner list, so the stored data stays empty. -/
theorem c10_cache_stays_empty (items : List String) :
    (items.foldl Cache.add Cache.new).data = [] := by
  have h : ∀ (l : List String) (c : Cache), l.foldl Cache.add c = c := by
    intro l
    induction l with
    | nil => intro c; rfl
    | cons x xs ih => intro c; exact ih (Cache.add c x)
  rw [h items Cache.new]
  rfl

/-- Claim C6 (confirmed): an absent role entry is skipped by resolution and
yields an absent handle rather than an error, and the chat handle's presence is
independent of the completion role's configuration — with chat configured as a
remote (HTTP) variant and completion unconfigured, resolution succeeds and
returns a present chat handle with an absent completion handle. -/
theorem c6_absent_roles_skipped (http : HttpModelConfig) :
    load_completion_and_chat none (some (ModelConfig.Http http))
        = Except.ok (none, none, some (ChatHandle.fromHttp http)) ∧
    load_completion_and_chat none none = Except.ok (none, none, none) :=
  ⟨rfl, rfl⟩

/-- Claim C8 (confirmed): the route-table build is deterministic — the
embedding of `api_router` is a pure function of its arguments, because the
source's route construction reads nothing but the resolved handles and the
configuration — so two invocations on the same inputs yield route tables
identical in their path+method entries and in the handler each entry is bound
to. -/
theorem c8_build_deterministic (args : ServeArgs) (config : Config) (logger : EventLogger)
    (code : CodeSearchHandle) (comp : Option CompletionService) (chat : Option ChatHandle) :
    ((api_router args config logger code comp chat).map (fun e => (e.path, e.method))
      = (api_router args config logger code comp chat).map (fun e => (e.path, e.method))) ∧
    ((api_router args config logger code comp chat).map RouteEntry.handler
      = (api_router args config logger code comp chat).map RouteEntry.handler) :=
  ⟨rfl, rfl⟩

/-- Claim C4 (confirmed): with an absent completion handle the route table
still contains the completions path — exactly once — bound to the fixed
`NOT_IMPLEMENTED` handler, and dispatch on that path finds it (`dispatch`
returning `none` is what a client sees as 404, so the path never 404s). -/
theorem c4_degraded_completions_route (args : ServeArgs) (config : Config)
    (logger : EventLogger) (code : CodeSearchHandle) (chat_state : Option ChatHandle) :
    dispatch (api_router args config logger code none chat_state) "/v1/completions" Method.POST
        = some Handler.not_implemented ∧
    countPath "/v1/completions" (api_router args config logger code none chat_state) = 1 :=
  ⟨rfl, rfl⟩

/-- Normal form of `assemble`: case analysis over the three role entries.
Resolution aborts on the first `Local` variant, in the order embedding,
completion, chat; otherwise every configured role yields a present handle and
every absent role an absent handle. -/
theorem assemble_eq (config : Config) (logger : EventLogger) :
    assemble config logger =
      match config.model.embedding with
      | ModelConfig.Local _ => Except.error "Local embedding model is not supported"
      | ModelConfig.Http he =>
        match config.model.completion, config.model.chat with
        | some (ModelConfig.Local _), _ =>
            Except.error "Local completion model is not supported"
        | some (ModelConfig.Http _), some (ModelConfig.Local _) =>
            Except.error "Local chat model is not supported"
        | none, some (ModelConfig.Local _) =>
            Except.error "Local chat model is not supported"
        | some (ModelConfig.Http hc), some (ModelConfig.Http hch) =>
            Except.ok (ResolvedServices.mk (EmbeddingHandle.fromHttp he)
              (CodeSearchHandle.mk (EmbeddingHandle.fromHttp he))
              (some (CompletionService.mk (CompletionHandle.fromHttp hc)
                (CodeSearchHandle.mk (EmbeddingHandle.fromHttp he)) logger))
              (some (ChatHandle.fromHttp hch)))
        | some (ModelConfig.Http hc), none =>
            Except.ok (ResolvedServices.mk (EmbeddingHandle.fromHttp he)
              (CodeSearchHandle.mk (EmbeddingHandle.fromHttp he))
              (some (CompletionService.mk (CompletionHandle.fromHttp hc)
                (CodeSearchHandle.mk (EmbeddingHandle.fromHttp he)) logger))
              none)
        | none, some (ModelConfig.Http hch) =>
            Except.ok (ResolvedServices.mk (EmbeddingHandle.fromHttp he)
              (CodeSearchHandle.mk (EmbeddingHandle.fromHttp he)) none
              (some (ChatHandle.fromHttp hch)))
        | none, none =>
            Except.ok (ResolvedServices.mk (EmbeddingHandle.fromHttp he)
              (CodeSearchHandle.mk (EmbeddingHandle.fromHttp he)) none none) := by
  rcases config with ⟨⟨mc, mch, me⟩, s, cc, r⟩
  rcases me with he | le
  · rcases mc with _ | (hc | lc) <;> rcases mch with _ | (hch | lch) <;> rfl
  · rfl

/-- Claim C2 (confirmed): a `Local` variant on any role (embedding, completion
or chat) makes service assembly fail with the fatal unsupported-configuration
error — the source's `unimplemented!` panic — and no (partially) resolved
`ResolvedServices` value is ever produced for such a configuration. -/
theorem c2_local_variant_fatal (config : Config) (logger : EventLogger)
    (h : (∃ l, config.model.embedding = ModelConfig.Local l) ∨
         (∃ l, config.model.completion = some (ModelConfig.Local l)) ∨
         (∃ l, config.model.chat = some (ModelConfig.Local l))) :
    ∃ e, assemble config logger = Except.error e := by
  rw [assemble_eq]
  rcases config with ⟨⟨mc, mch, me⟩, s, cc, r⟩
  rcases me with he | le <;> rcases mc with _ | (hc | lc) <;> rcases mch with _ | (hch | lch) <;>
    first
      | exact ⟨_, rfl⟩
      | (rcases h with ⟨l, hl⟩ | ⟨l, hl⟩ | ⟨l, hl⟩ <;> simp at hl)

/-- Witness for `c2_local_variant_fatal`: the configuration whose embedding is
a `Local` variant fails assembly. -/
theorem c2_local_variant_fatal_witness :
    ∃ e, assemble cfgLocalEmbedding sampleLogger = Except.error e :=
  c2_local_variant_fatal cfgLocalEmbedding sampleLogger
    (Or.inl ⟨LocalModelConfig.mk "/models/foo" 1 Device.Cpu, rfl⟩)

/-- The resolved services of `cfgChatOnly`: chat handle present, completion
handle absent. -/
def svcsChatOnly : ResolvedServices :=
  ResolvedServices.mk (EmbeddingHandle.fromHttp sampleEmbeddingHttp)
    (CodeSearchHandle.mk (EmbeddingHandle.fromHttp sampleEmbeddingHttp)) none
    (some sampleChatHandle)

/-- Claim C1 (counterexample): `cfgChatOnly` has a chat model configured and
assembles successfully, yet the route table built from its resolved services
contains zero chat-completions entries — the chat route's presence does depend
on the completion handle, refuting the claim that it depends only on the chat
handle. -/
theorem c1_counterexample :
    cfgChatOnly.model.chat.isSome = true ∧
    assemble cfgChatOnly sampleLogger = Except.ok svcsChatOnly ∧
    countPath "/v1/chat/completions"
      (api_router sampleArgs cfgChatOnly sampleLogger svcsChatOnly.code svcsChatOnly.completion
        svcsChatOnly.chat) = 0 :=
  ⟨rfl, rfl, rfl⟩

/-- Claim C1 (corrected): for every configuration that assembles successfully,
the route table contains exactly one chat-completions entry when both the chat
and the completion model are configured, and none otherwise — in particular a
configured chat model alone does not produce a chat route, because the chat
route is registered inside the completion branch of `api_router`. -/
theorem c1_chat_route_gated_by_completion (args : ServeArgs) (config : Config)
    (logger : EventLogger) (svcs : ResolvedServices)
    (h : assemble config logger = Except.ok svcs) :
    countPath "/v1/chat/completions"
        (api_router args config logger svcs.code svcs.completion svcs.chat)
      = (if config.model.completion.isSome && config.model.chat.isSome then 1 else 0) := by
  rw [assemble_eq] at h
  rcases config with ⟨⟨mc, mch, me⟩, s, cc, r⟩
  rcases me with he | le <;> rcases mc with _ | (hc | lc) <;> rcases mch with _ | (hch | lch) <;>
    simp at h <;> subst h <;> rfl

/-- The resolved services of `cfgBoth`: completion and chat handles both
present. -/
def svcsBoth : ResolvedServices :=
  ResolvedServices.mk (EmbeddingHandle.fromHttp sampleEmbeddingHttp)
    (CodeSearchHandle.mk (EmbeddingHandle.fromHttp sampleEmbeddingHttp))
    (some (CompletionService.mk (CompletionHandle.fromHttp sampleCompletionHttp)
      (CodeSearchHandle.mk (EmbeddingHandle.fromHttp sampleEmbeddingHttp)) sampleLogger))
    (some sampleChatHandle)

/-- Witness for `c1_chat_route_gated_by_completion` at a configuration with
both completion and chat configured. -/
theorem c1_chat_route_gated_by_completion_witness :
    countPath "/v1/chat/completions"
        (api_router sampleArgs cfgBoth sampleLogger svcsBoth.code svcsBoth.completion
          svcsBoth.chat)
      = (if cfgBoth.model.completion.isSome && cfgBoth.model.chat.isSome then 1 else 0) :=
  c1_chat_route_gated_by_completion sampleArgs cfgBoth sampleLogger svcsBoth rfl

/-- The route table built from `cfgBoth` with both handles present. -/
def tableBoth : Router :=
  api_router sampleArgs cfgBoth sampleLogger sampleCode (some sampleCompletionService)
    (some sampleChatHandle)

/-- Claim C5 (counterexample): with both handles present, the unique
chat-completions entry of the route table is wrapped only by the
access-control layer — the request-timeout middleware is not among its layers,
refuting the claim that the chat route shares both wrapping middlewares with
the completions route. -/
theorem c5_counterexample :
    (tableBoth.filter (fun e => decide (e.path = "/v1/chat/completions")))
      = [RouteEntry.mk "/v1/chat/completions" Method.POST
          (Handler.chat_completions sampleChatHandle) [Middleware.allowedCodeRepository]] ∧
    Middleware.timeout cfgBoth.server.completion_timeout ∉
      ([Middleware.allowedCodeRepository] : List Middleware) :=
  ⟨rfl, by decide⟩

/-- Claim C5 (corrected): when completion and chat handles are both present,
the chat-completions route is registered on the same sub-router as the
completions route and shares its access-control layer, but not the timeout
layer: `Router.layer` wraps only routes already registered, and the timeout
layer is applied before the chat route is added, so it wraps the completions
route alone. -/
theorem c5_shared_subrouter_layers (args : ServeArgs) (config : Config)
    (logger : EventLogger) (code : CodeSearchHandle) (cs : CompletionService) (ch : ChatHandle) :
    ((api_router args config logger code (some cs) (some ch)).filter
        (fun e => decide (e.path = "/v1/chat/completions")))
      = [RouteEntry.mk "/v1/chat/completions" Method.POST (Handler.chat_completions ch)
          [Middleware.allowedCodeRepository]] ∧
    ((api_router args config logger code (some cs) (some ch)).filter
        (fun e => decide (e.path = "/v1/completions")))
      = [RouteEntry.mk "/v1/completions" Method.POST (Handler.completions cs)
          [Middleware.timeout config.server.completion_timeout,
           Middleware.allowedCodeRepository]] :=
  ⟨rfl, rfl⟩

end Xpilot
